import Mathlib

/-!
# Verification of the Football Analytics API backend

A shallow embedding of the FastAPI backend (`src/main.py`, `src/routes/*.py`,
`src/schemas/*.py`) of the football-analytics repository, together with proofs
of the specified properties.

The service serves pre-computed JSON fixtures from a `dummy_data` directory
and exposes a stub video-upload endpoint.  We model:

* JSON values (`Json`), the fixture directory (`FsState`: a map from path to
  file content, where content is either malformed or a parsed JSON value),
* the two `load_json_file` helpers (one per route module) and the six GET
  route handlers, including the generic `response_model` declared on each
  route decorator (`List[Dict[str, Any]]` or `Dict[str, Any]`), whose
  violation by the returned value makes the framework answer with a
  response-validation failure (HTTP 500) instead of the body,
* the pydantic entity schemas of `src/schemas/tactical.py` and
  `src/schemas/decisions.py` as validators from `Json` to typed records,
* the upload handler of `src/routes/upload.py`.

Python `float` fields are modelled with `Rat`: every bound in the schemas is
an order comparison on literal numeric values, which `Rat` reflects exactly.
-/

/-- JSON values, as produced by Python `json.load`. -/
inductive Json where
  | null : Json
  | bool : Bool → Json
  | num : Rat → Json
  | str : String → Json
  | arr : List Json → Json
  | obj : List (String × Json) → Json

/-- Look up a key in a JSON object's field list (first occurrence wins,
as in a Python dict built by `json.load`, which keeps the last duplicate;
fixtures have no duplicate keys so the difference is immaterial). -/
def lookupField : List (String × Json) → String → Option Json
  | [], _ => none
  | (k, v) :: rest, key => if k = key then some v else lookupField rest key

/-- Is the value a JSON object?  This is what the declared response model
`Dict[str, Any]` checks: the value must be a dict (JSON-object keys are
always strings). -/
def isDictJson : Json → Bool
  | .obj _ => true
  | _ => false

/-- Is the value a JSON array of objects?  This is what the declared response
model `List[Dict[str, Any]]` checks. -/
def isListDictJson : Json → Bool
  | .arr xs => xs.all isDictJson
  | _ => false

/-- An HTTP error as raised by `HTTPException(status_code=..., detail=...)`. -/
structure HTTPException where
  status_code : Nat
  detail : String
deriving DecidableEq, Repr

/-- The outcome of a GET route, as seen by the HTTP client:
either a 200 response carrying a JSON body, a surfaced `HTTPException`,
or the framework's response-model validation failure (HTTP 500), raised when
the value returned by the handler does not fit the route's declared
`response_model`. -/
inductive HttpResponse where
  | ok : Json → HttpResponse
  | err : HTTPException → HttpResponse
  | respValidationErr : HttpResponse

/-- Content of a file in the fixture directory: either text that is not
valid JSON, or a (parsed) JSON value. -/
inductive FileData where
  | invalid : FileData
  | valid : Json → FileData

/-- The state of the filesystem visible to the service: a partial map from
paths to file contents. -/
def FsState := String → Option FileData

/-- The common shape of the six GET route handlers: each handler body is
`return load_json_file(<filename>)`, and the route decorator declares a
generic `response_model` (here `check`) that the returned value must fit,
else the framework answers with a response-validation failure. -/
def serveFixture
    (loader : FsState → String → Except HTTPException Json × FsState)
    (check : Json → Bool) (filename : String) (st : FsState) :
    HttpResponse × FsState :=
  match loader st filename with
  | (.error e, st1) => (.err e, st1)
  | (.ok j, st1) =>
      if check j then (.ok j, st1) else (.respValidationErr, st1)

namespace Tactical

/-- `DUMMY_DATA_DIR = BASE_DIR / "dummy_data"` in `src/routes/tactical.py`,
with `BASE_DIR` the parent of the `routes` folder; paths below are taken
relative to `BASE_DIR`. -/
def DUMMY_DATA_DIR : String := "dummy_data"

/-- `load_json_file` of `src/routes/tactical.py`: raise 404 if the file does
not exist, parse it as JSON, raise 500 on `json.JSONDecodeError`, otherwise
return the parsed data.  The open is read-only (`'r'`), so the filesystem
state is returned unchanged. -/
def load_json_file (st : FsState) (filename : String) :
    Except HTTPException Json × FsState :=
  match st (DUMMY_DATA_DIR ++ "/" ++ filename) with
  | none =>
      (.error ⟨404, "Data file " ++ filename ++ " not found"⟩, st)
  | some .invalid =>
      (.error ⟨500, "Error parsing " ++ filename⟩, st)
  | some (.valid j) =>
      (.ok j, st)

/-- GET `/api/tactical/heatmap` (`response_model=List[Dict[str, Any]]`):
returns `load_json_file("heatmap.json")`. -/
def get_heatmap (st : FsState) : HttpResponse × FsState :=
  serveFixture load_json_file isListDictJson "heatmap.json" st

/-- GET `/api/tactical/pass-network` (`response_model=Dict[str, Any]`):
returns `load_json_file("pass_network.json")`. -/
def get_pass_network (st : FsState) : HttpResponse × FsState :=
  serveFixture load_json_file isDictJson "pass_network.json" st

/-- GET `/api/tactical/tracking` (`response_model=List[Dict[str, Any]]`):
returns `load_json_file("tracking.json")`. -/
def get_tracking (st : FsState) : HttpResponse × FsState :=
  serveFixture load_json_file isListDictJson "tracking.json" st

end Tactical

namespace Decisions

/-- `DUMMY_DATA_DIR = BASE_DIR / "dummy_data"` in `src/routes/decisions.py`,
with `BASE_DIR` the parent of the `routes` folder — the same directory as in
the tactical module. -/
def DUMMY_DATA_DIR : String := "dummy_data"

/-- `load_json_file` of `src/routes/decisions.py`: textually the same helper
as the one in `src/routes/tactical.py`. -/
def load_json_file (st : FsState) (filename : String) :
    Except HTTPException Json × FsState :=
  match st (DUMMY_DATA_DIR ++ "/" ++ filename) with
  | none =>
      (.error ⟨404, "Data file " ++ filename ++ " not found"⟩, st)
  | some .invalid =>
      (.error ⟨500, "Error parsing " ++ filename⟩, st)
  | some (.valid j) =>
      (.ok j, st)

/-- GET `/api/decisions/offside` (`response_model=List[Dict[str, Any]]`):
returns `load_json_file("offside.json")`. -/
def get_offside (st : FsState) : HttpResponse × FsState :=
  serveFixture load_json_file isListDictJson "offside.json" st

/-- GET `/api/decisions/fouls` (`response_model=List[Dict[str, Any]]`):
returns `load_json_file("fouls.json")`. -/
def get_fouls (st : FsState) : HttpResponse × FsState :=
  serveFixture load_json_file isListDictJson "fouls.json" st

/-- GET `/api/decisions/goal-prediction` (`response_model=Dict[str, Any]`):
returns `load_json_file("goal_prediction.json")`. -/
def get_goal_prediction (st : FsState) : HttpResponse × FsState :=
  serveFixture load_json_file isDictJson "goal_prediction.json" st

end Decisions

/-! ## Pydantic entity schemas

Each pydantic model of `src/schemas/tactical.py` and `src/schemas/decisions.py`
is embedded as a record type and a validator `Json → Option record` that
checks required presence, the declared Python type, and the declared
`ge`/`le` bounds of every field, exactly those written in the `Field(...)`
declarations (pydantic's lax string-to-number coercion is not exercised by
any fixture and is not modelled). -/

/-- Validate a JSON value against a Python `int` field. -/
def asInt : Json → Option Int
  | .num q => if q.den = 1 then some q.num else none
  | _ => none

/-- Validate a JSON value against a Python `float` field (any JSON number). -/
def asRat : Json → Option Rat
  | .num q => some q
  | _ => none

/-- Validate a JSON value against a Python `bool` field. -/
def asBool : Json → Option Bool
  | .bool b => some b
  | _ => none

/-- Validate a JSON value against a Python `str` field. -/
def asStr : Json → Option String
  | .str s => some s
  | _ => none

/-- A required field: look it up and convert; missing field fails. -/
def fieldAs (fields : List (String × Json)) (key : String)
    (conv : Json → Option α) : Option α :=
  (lookupField fields key).bind conv

/-- An `int` field with `ge=lo, le=hi`. -/
def geLeInt (lo hi : Int) (j : Json) : Option Int :=
  (asInt j).bind fun v => if lo ≤ v ∧ v ≤ hi then some v else none

/-- An `int` field with `ge=lo`. -/
def geInt (lo : Int) (j : Json) : Option Int :=
  (asInt j).bind fun v => if lo ≤ v then some v else none

/-- A `float` field with `ge=lo, le=hi`. -/
def geLeRat (lo hi : Rat) (j : Json) : Option Rat :=
  (asRat j).bind fun v => if lo ≤ v ∧ v ≤ hi then some v else none

/-- A `float` field with `ge=lo`. -/
def geRat (lo : Rat) (j : Json) : Option Rat :=
  (asRat j).bind fun v => if lo ≤ v then some v else none

/-- `HeatmapPoint` of `src/schemas/tactical.py`:
`x, y : int` in `[0, 100]`, `intensity : float` in `[0, 1]`. -/
structure HeatmapPoint where
  x : Int
  y : Int
  intensity : Rat
deriving DecidableEq, Repr

/-- Pydantic validation of a `HeatmapPoint` from a JSON value. -/
def validateHeatmapPoint : Json → Option HeatmapPoint
  | .obj fields =>
      (fieldAs fields "x" (geLeInt 0 100)).bind fun x =>
      (fieldAs fields "y" (geLeInt 0 100)).bind fun y =>
      (fieldAs fields "intensity" (geLeRat 0 1)).bind fun inten =>
      some ⟨x, y, inten⟩
  | _ => none

/-- `PassConnection` of `src/schemas/tactical.py`:
`from_player : int` (alias `"from"`), `to_player : int` (alias `"to"`),
`count : int ≥ 0`; `populate_by_name = True` lets the field name stand in
for the alias. -/
structure PassConnection where
  from_player : Int
  to_player : Int
  count : Int
deriving DecidableEq, Repr

/-- Look up an aliased pydantic field: the alias key first, then (because of
`populate_by_name = True`) the field name. -/
def aliasedField (fields : List (String × Json)) (aliasKey fieldName : String)
    (conv : Json → Option α) : Option α :=
  match lookupField fields aliasKey with
  | some v => conv v
  | none => fieldAs fields fieldName conv

/-- Pydantic validation of a `PassConnection` from a JSON value. -/
def validatePassConnection : Json → Option PassConnection
  | .obj fields =>
      (aliasedField fields "from" "from_player" asInt).bind fun fp =>
      (aliasedField fields "to" "to_player" asInt).bind fun tp =>
      (fieldAs fields "count" (geInt 0)).bind fun c =>
      some ⟨fp, tp, c⟩
  | _ => none

/-- `TrackingPoint` of `src/schemas/tactical.py`:
`player_id : int`, `timestamp : float ≥ 0`, `x, y : float` in `[0, 100]`,
`speed : Optional[float] ≥ 0` defaulting to `None`. -/
structure TrackingPoint where
  player_id : Int
  timestamp : Rat
  x : Rat
  y : Rat
  speed : Option Rat
deriving DecidableEq, Repr

/-- Pydantic validation of a `TrackingPoint` from a JSON value. -/
def validateTrackingPoint : Json → Option TrackingPoint
  | .obj fields =>
      (fieldAs fields "player_id" asInt).bind fun pid =>
      (fieldAs fields "timestamp" (geRat 0)).bind fun ts =>
      (fieldAs fields "x" (geLeRat 0 100)).bind fun x =>
      (fieldAs fields "y" (geLeRat 0 100)).bind fun y =>
      match lookupField fields "speed" with
      | none => some ⟨pid, ts, x, y, none⟩
      | some .null => some ⟨pid, ts, x, y, none⟩
      | some sj => (geRat 0 sj).bind fun sp => some ⟨pid, ts, x, y, some sp⟩
  | _ => none

/-- `SeverityLevel` of `src/schemas/decisions.py`: a `str` enum with members
`MINOR = "minor"`, `MAJOR = "major"`, `YELLOW_CARD = "yellow_card"`,
`RED_CARD = "red_card"`. -/
inductive SeverityLevel where
  | MINOR : SeverityLevel
  | MAJOR : SeverityLevel
  | YELLOW_CARD : SeverityLevel
  | RED_CARD : SeverityLevel
deriving DecidableEq, Repr

/-- The string value of each `SeverityLevel` member. -/
def SeverityLevel.value : SeverityLevel → String
  | .MINOR => "minor"
  | .MAJOR => "major"
  | .YELLOW_CARD => "yellow_card"
  | .RED_CARD => "red_card"

/-- The set of string values of the `SeverityLevel` enum members. -/
def severityValues : List String :=
  [SeverityLevel.MINOR.value, SeverityLevel.MAJOR.value,
   SeverityLevel.YELLOW_CARD.value, SeverityLevel.RED_CARD.value]

/-- `OffsideEvent` of `src/schemas/decisions.py`:
`player_id : int`, `timestamp : float ≥ 0`, `x, y : float` in `[0, 100]`,
`is_correct : bool`. -/
structure OffsideEvent where
  player_id : Int
  timestamp : Rat
  x : Rat
  y : Rat
  is_correct : Bool
deriving DecidableEq, Repr

/-- Pydantic validation of an `OffsideEvent` from a JSON value. -/
def validateOffsideEvent : Json → Option OffsideEvent
  | .obj fields =>
      (fieldAs fields "player_id" asInt).bind fun pid =>
      (fieldAs fields "timestamp" (geRat 0)).bind fun ts =>
      (fieldAs fields "x" (geLeRat 0 100)).bind fun x =>
      (fieldAs fields "y" (geLeRat 0 100)).bind fun y =>
      (fieldAs fields "is_correct" asBool).bind fun c =>
      some ⟨pid, ts, x, y, c⟩
  | _ => none

/-- `FoulEvent` of `src/schemas/decisions.py`: `foul_id`, `player_committed`,
`player_suffered : int`, `timestamp : float ≥ 0`, `x, y : float` in
`[0, 100]`, `severity : str` — declared as a plain string, not as
`SeverityLevel` — and `is_correct : bool`. -/
structure FoulEvent where
  foul_id : Int
  player_committed : Int
  player_suffered : Int
  timestamp : Rat
  x : Rat
  y : Rat
  severity : String
  is_correct : Bool
deriving DecidableEq, Repr

/-- Pydantic validation of a `FoulEvent` from a JSON value.  The `severity`
field is annotated `str` in the source, so any JSON string passes. -/
def validateFoulEvent : Json → Option FoulEvent
  | .obj fields =>
      (fieldAs fields "foul_id" asInt).bind fun fid =>
      (fieldAs fields "player_committed" asInt).bind fun pc =>
      (fieldAs fields "player_suffered" asInt).bind fun ps =>
      (fieldAs fields "timestamp" (geRat 0)).bind fun ts =>
      (fieldAs fields "x" (geLeRat 0 100)).bind fun x =>
      (fieldAs fields "y" (geLeRat 0 100)).bind fun y =>
      (fieldAs fields "severity" asStr).bind fun sev =>
      (fieldAs fields "is_correct" asBool).bind fun c =>
      some ⟨fid, pc, ps, ts, x, y, sev, c⟩
  | _ => none

/-- `GoalPrediction` of `src/schemas/decisions.py`:
`shot_x, shot_y : float` in `[0, 100]`, `xG : float` in `[0, 1]`,
`is_goal : bool`. -/
structure GoalPrediction where
  shot_x : Rat
  shot_y : Rat
  xG : Rat
  is_goal : Bool
deriving DecidableEq, Repr

/-- Pydantic validation of a `GoalPrediction` from a JSON value. -/
def validateGoalPrediction : Json → Option GoalPrediction
  | .obj fields =>
      (fieldAs fields "shot_x" (geLeRat 0 100)).bind fun sx =>
      (fieldAs fields "shot_y" (geLeRat 0 100)).bind fun sy =>
      (fieldAs fields "xG" (geLeRat 0 1)).bind fun xg =>
      (fieldAs fields "is_goal" asBool).bind fun g =>
      some ⟨sx, sy, xg, g⟩
  | _ => none

/-- A JSON value is a valid heatmap fixture for the declared entity schema
when it is an array whose every element validates as a `HeatmapPoint`. -/
def heatmapEntityValid : Json → Bool
  | .arr xs => xs.all fun e => (validateHeatmapPoint e).isSome
  | _ => false

/-- A JSON value is a valid pass-network fixture for the `PassNetwork`
schema: an object whose `passes` field is an array of valid
`PassConnection` records. -/
def passNetworkEntityValid : Json → Bool
  | .obj fields =>
      match lookupField fields "passes" with
      | some (.arr xs) => xs.all fun e => (validatePassConnection e).isSome
      | _ => false
  | _ => false

/-- A JSON value is a valid tracking fixture for the `TrackingPoint`
schema: an array of valid `TrackingPoint` records. -/
def trackingEntityValid : Json → Bool
  | .arr xs => xs.all fun e => (validateTrackingPoint e).isSome
  | _ => false

/-- A JSON value is a valid offside fixture for the `OffsideEvent` schema:
an array of valid `OffsideEvent` records. -/
def offsideEntityValid : Json → Bool
  | .arr xs => xs.all fun e => (validateOffsideEvent e).isSome
  | _ => false

/-- A JSON value is a valid fouls fixture for the `FoulEvent` schema:
an array of valid `FoulEvent` records. -/
def foulsEntityValid : Json → Bool
  | .arr xs => xs.all fun e => (validateFoulEvent e).isSome
  | _ => false

/-- A JSON value is a valid goal-prediction fixture for the
`GoalPrediction` schema. -/
def goalPredictionEntityValid (j : Json) : Bool :=
  (validateGoalPrediction j).isSome

/-! ## Upload handler (`src/routes/upload.py`) -/

/-- The success body of POST `/api/upload-video`: message, constant
`video_id`, and the echoed `filename` and `content_type` of the uploaded
file (both optional on a Starlette `UploadFile`). -/
structure UploadSuccess where
  message : String
  video_id : Nat
  filename : Option String
  content_type : Option String
deriving DecidableEq, Repr

/-- Python `s.startswith(p)`: `p` is a prefix of `s`. -/
def pyStartsWith (s p : String) : Bool :=
  List.isPrefixOf p.data s.data

/-- Python truthiness of `video.content_type`: `None` and the empty string
are falsy. -/
def contentTypeTruthy : Option String → Bool
  | none => false
  | some s => !(s == "")

/-- `upload_video` of `src/routes/upload.py`: raise
`HTTPException(400, "File must be a video")` when
`not video.content_type or not video.content_type.startswith('video/')`,
otherwise return the fixed acknowledgment record with `video_id = 1` and the
request's `filename` and `content_type` echoed. -/
def upload_video (filename content_type : Option String) :
    Except HTTPException UploadSuccess :=
  if !contentTypeTruthy content_type
      || !(pyStartsWith (content_type.getD "") "video/") then
    .error ⟨400, "File must be a video"⟩
  else
    .ok ⟨"Video uploaded successfully", 1, filename, content_type⟩

/-- `upload_video` paired with the filesystem state: the handler body
performs no filesystem operation at all (the commented-out size check and
storage steps are explicitly deferred in the source), so the state passes
through unchanged. -/
def upload_video_fs (st : FsState) (filename content_type : Option String) :
    Except HTTPException UploadSuccess × FsState :=
  (upload_video filename content_type, st)

/-! ## Concrete inputs used to exercise the model -/

/-- A heatmap fixture that is a JSON array of objects but violates the
`HeatmapPoint` bounds: `intensity = 5` is outside `[0, 1]`. -/
def jBadHeatmap : Json :=
  .arr [.obj [("x", .num 20), ("y", .num 50), ("intensity", .num 5)]]

/-- A fixture directory whose `heatmap.json` holds `jBadHeatmap`. -/
def stBadHeatmap : FsState := fun p =>
  if p = "dummy_data/heatmap.json" then some (.valid jBadHeatmap) else none

/-- A fixture directory whose `heatmap.json` holds the valid JSON value
`42`, which does not fit the declared response model
`List[Dict[str, Any]]`. -/
def stNum42 : FsState := fun p =>
  if p = "dummy_data/heatmap.json" then some (.valid (.num 42)) else none

/-- A fixture directory holding, for every data endpoint, a minimal JSON
value of the right generic shape (empty array / empty object) that is
nevertheless not entity-valid. -/
def stGenericOnly : FsState := fun p =>
  if p = "dummy_data/heatmap.json" then some (.valid (.arr [.obj []]))
  else if p = "dummy_data/pass_network.json" then some (.valid (.obj []))
  else if p = "dummy_data/tracking.json" then some (.valid (.arr [.obj []]))
  else if p = "dummy_data/offside.json" then some (.valid (.arr [.obj []]))
  else if p = "dummy_data/fouls.json" then some (.valid (.arr [.obj []]))
  else if p = "dummy_data/goal_prediction.json" then some (.valid (.obj []))
  else none

/-- A fixture directory holding one well-formed fixture per endpoint. -/
def stRoundtrip : FsState := fun p =>
  if p = "dummy_data/heatmap.json" then some (.valid (.arr []))
  else if p = "dummy_data/pass_network.json" then
    some (.valid (.obj [("passes", .arr [])]))
  else if p = "dummy_data/tracking.json" then some (.valid (.arr []))
  else if p = "dummy_data/offside.json" then some (.valid (.arr []))
  else if p = "dummy_data/fouls.json" then some (.valid (.arr []))
  else if p = "dummy_data/goal_prediction.json" then
    some (.valid (.obj [("shot_x", .num 30), ("shot_y", .num 70),
                        ("xG", .num 0), ("is_goal", .bool false)]))
  else none

/-- A fixture directory for exercising the loader: `offside.json` present
and valid, `fouls.json` present but malformed, `tracking.json` absent. -/
def stLoader : FsState := fun p =>
  if p = "dummy_data/offside.json" then some (.valid (.arr []))
  else if p = "dummy_data/fouls.json" then some .invalid
  else none

/-- A foul record whose `severity` is not one of the `SeverityLevel`
members, every other field well-formed and in range. -/
def jFoulBanana : Json :=
  .obj [("foul_id", .num 1), ("player_committed", .num 5),
        ("player_suffered", .num 10), ("timestamp", .num 0),
        ("x", .num 50), ("y", .num 30), ("severity", .str "banana"),
        ("is_correct", .bool true)]

/-- A well-formed heatmap point record (`intensity = 1` keeps the rational
literal whole, which the kernel evaluates directly). -/
def jHeatmapPointOk : Json :=
  .obj [("x", .num 20), ("y", .num 50), ("intensity", .num 1)]

/-- The `HeatmapPoint` parsed from `jHeatmapPointOk`. -/
def heatmapPointOk : HeatmapPoint := ⟨20, 50, 1⟩

/-- A well-formed pass connection record. -/
def jPassConnectionOk : Json :=
  .obj [("from", .num 8), ("to", .num 10), ("count", .num 12)]

/-- The `PassConnection` parsed from `jPassConnectionOk`. -/
def passConnectionOk : PassConnection := ⟨8, 10, 12⟩

/-! ## Helper lemmas -/

/-- A successful `fieldAs` means the key was present and converted. -/
theorem fieldAs_spec {α : Type} {fields : List (String × Json)} {key : String}
    {conv : Json → Option α} {v : α} (h : fieldAs fields key conv = some v) :
    ∃ jv, lookupField fields key = some jv ∧ conv jv = some v := by
  simpa [fieldAs, Option.bind_eq_some] using h

/-- A value passing `geLeInt` satisfies both bounds. -/
theorem geLeInt_bounds {lo hi : Int} {j : Json} {v : Int}
    (h : geLeInt lo hi j = some v) : lo ≤ v ∧ v ≤ hi := by
  simp only [geLeInt, Option.bind_eq_some] at h
  obtain ⟨w, -, h2⟩ := h
  split at h2
  · cases h2; assumption
  · cases h2

/-- A value passing `geInt` satisfies the lower bound. -/
theorem geInt_bound {lo : Int} {j : Json} {v : Int}
    (h : geInt lo j = some v) : lo ≤ v := by
  simp only [geInt, Option.bind_eq_some] at h
  obtain ⟨w, -, h2⟩ := h
  split at h2
  · cases h2; assumption
  · cases h2

/-- A value passing `geLeRat` satisfies both bounds. -/
theorem geLeRat_bounds {lo hi : Rat} {j : Json} {v : Rat}
    (h : geLeRat lo hi j = some v) : lo ≤ v ∧ v ≤ hi := by
  simp only [geLeRat, Option.bind_eq_some] at h
  obtain ⟨w, -, h2⟩ := h
  split at h2
  · cases h2; assumption
  · cases h2

/-- A value passing `geRat` satisfies the lower bound. -/
theorem geRat_bound {lo : Rat} {j : Json} {v : Rat}
    (h : geRat lo j = some v) : lo ≤ v := by
  simp only [geRat, Option.bind_eq_some] at h
  obtain ⟨w, -, h2⟩ := h
  split at h2
  · cases h2; assumption
  · cases h2

/-- The tactical loader never changes the filesystem state. -/
theorem tactical_loader_snd (st : FsState) (fn : String) :
    (Tactical.load_json_file st fn).2 = st := by
  unfold Tactical.load_json_file
  rcases st (Tactical.DUMMY_DATA_DIR ++ "/" ++ fn) with _ | (_ | j) <;> rfl

/-- The decisions loader never changes the filesystem state. -/
theorem decisions_loader_snd (st : FsState) (fn : String) :
    (Decisions.load_json_file st fn).2 = st := by
  unfold Decisions.load_json_file
  rcases st (Decisions.DUMMY_DATA_DIR ++ "/" ++ fn) with _ | (_ | j) <;> rfl

/-- A fixture-serving handler never changes the filesystem state when its
loader does not. -/
theorem serveFixture_snd
    (loader : FsState → String → Except HTTPException Json × FsState)
    (check : Json → Bool) (fn : String) (st : FsState)
    (hld : (loader st fn).2 = st) :
    (serveFixture loader check fn st).2 = st := by
  unfold serveFixture
  rcases hl : loader st fn with ⟨res, st1⟩
  rw [hl] at hld
  cases res with
  | error e => simpa using hld
  | ok j =>
      simp only []
      split <;> simpa using hld

/-- When the tactical loader finds a valid JSON fixture, it returns it. -/
theorem tactical_loader_ok (st : FsState) (fn : String) (j : Json)
    (h : st (Tactical.DUMMY_DATA_DIR ++ "/" ++ fn) = some (.valid j)) :
    (Tactical.load_json_file st fn).1 = .ok j := by
  unfold Tactical.load_json_file
  rw [h]

/-- When the decisions loader finds a valid JSON fixture, it returns it. -/
theorem decisions_loader_ok (st : FsState) (fn : String) (j : Json)
    (h : st (Decisions.DUMMY_DATA_DIR ++ "/" ++ fn) = some (.valid j)) :
    (Decisions.load_json_file st fn).1 = .ok j := by
  unfold Decisions.load_json_file
  rw [h]

/-- A fixture-serving handler answers 200 with the loaded value whenever the
loader succeeds and the value fits the declared response model. -/
theorem serveFixture_ok
    (loader : FsState → String → Except HTTPException Json × FsState)
    (check : Json → Bool) (fn : String) (st : FsState) (j : Json)
    (hld : (loader st fn).1 = .ok j) (hck : check j = true) :
    (serveFixture loader check fn st).1 = .ok j := by
  unfold serveFixture
  rcases hl : loader st fn with ⟨res, st1⟩
  rw [hl] at hld
  cases res with
  | error e => exact absurd hld (by simp)
  | ok j2 =>
      have hj : j2 = j := by simpa using hld
      subst hj
      simp [hck]

/-! ## Claims -/

/-- **C10.** The two `load_json_file` helper functions, one in the tactical
routes module and one in the decisions routes module, are extensionally
equal: for every filename and every state of the fixture directory they
return the same parsed value or fail with the same error status and
message. -/
theorem C10_loaders_extensionally_equal (st : FsState) (filename : String) :
    Tactical.load_json_file st filename = Decisions.load_json_file st filename :=
  rfl

/-- **C8.** No endpoint modifies the fixture data store or any other
persistent state: every GET handler and the upload handler leave the
filesystem state unchanged, and the upload handler stores nothing. -/
theorem C8_handlers_preserve_state (st : FsState)
    (filename content_type : Option String) :
    (Tactical.get_heatmap st).2 = st
    ∧ (Tactical.get_pass_network st).2 = st
    ∧ (Tactical.get_tracking st).2 = st
    ∧ (Decisions.get_offside st).2 = st
    ∧ (Decisions.get_fouls st).2 = st
    ∧ (Decisions.get_goal_prediction st).2 = st
    ∧ (upload_video_fs st filename content_type).2 = st :=
  ⟨serveFixture_snd _ _ _ st (tactical_loader_snd st _),
   serveFixture_snd _ _ _ st (tactical_loader_snd st _),
   serveFixture_snd _ _ _ st (tactical_loader_snd st _),
   serveFixture_snd _ _ _ st (decisions_loader_snd st _),
   serveFixture_snd _ _ _ st (decisions_loader_snd st _),
   serveFixture_snd _ _ _ st (decisions_loader_snd st _),
   rfl⟩

/-- **C3.** For every filename, the JSON loader fails with 404 (and the
not-found message) exactly when the fixture file is absent, fails with 500
(and the parse-error message) exactly when the file exists but its content
is not valid JSON, and in every other case returns the parsed content
without error. -/
theorem C3_loader_error_taxonomy (st : FsState) (filename : String) :
    ((Decisions.load_json_file st filename).1 =
        .error ⟨404, "Data file " ++ filename ++ " not found"⟩
      ↔ st (Decisions.DUMMY_DATA_DIR ++ "/" ++ filename) = none)
    ∧ ((Decisions.load_json_file st filename).1 =
        .error ⟨500, "Error parsing " ++ filename⟩
      ↔ st (Decisions.DUMMY_DATA_DIR ++ "/" ++ filename) = some .invalid)
    ∧ (∀ j, st (Decisions.DUMMY_DATA_DIR ++ "/" ++ filename) =
          some (.valid j) →
        (Decisions.load_json_file st filename).1 = .ok j) := by
  rcases hst : st (Decisions.DUMMY_DATA_DIR ++ "/" ++ filename)
    with _ | (_ | j) <;>
    simp [Decisions.load_json_file, hst]

/-- Witness for C3: in a concrete fixture directory where `offside.json`
is valid, `fouls.json` is malformed and `tracking.json` is absent, the
loader answers as the taxonomy says. -/
theorem C3_loader_error_taxonomy_witness :
    (Decisions.load_json_file stLoader "offside.json").1 = .ok (.arr [])
    ∧ (Decisions.load_json_file stLoader "fouls.json").1 =
        .error ⟨500, "Error parsing " ++ "fouls.json"⟩
    ∧ (Decisions.load_json_file stLoader "tracking.json").1 =
        .error ⟨404, "Data file " ++ "tracking.json" ++ " not found"⟩ :=
  ⟨(C3_loader_error_taxonomy stLoader "offside.json").2.2 (.arr []) rfl,
   (C3_loader_error_taxonomy stLoader "fouls.json").2.1.mpr rfl,
   (C3_loader_error_taxonomy stLoader "tracking.json").1.mpr rfl⟩

/-- **C6.** The spec declares `severity` an enum over
`{minor, major, yellow_card, red_card}`, and the source defines exactly that
`SeverityLevel` enum and lists those values in the field's description, but
the `FoulEvent.severity` field is annotated plain `str`: validation accepts
a record whose severity is `"banana"`, a string that is not among the
`SeverityLevel` values. -/
theorem C6_severity_not_restricted :
    (validateFoulEvent jFoulBanana).map FoulEvent.severity = some "banana"
    ∧ severityValues.contains "banana" = false := by
  constructor
  · decide
  · decide

/-- **C7.** Every record accepted by the entity schemas satisfies the
declared numeric bounds: `HeatmapPoint` has `x, y ∈ [0,100]` and
`intensity ∈ [0,1]`; `GoalPrediction` has `shot_x, shot_y ∈ [0,100]` and
`xG ∈ [0,1]`; `TrackingPoint` and the event records have `timestamp ≥ 0`
and coordinates in `[0,100]`; `PassConnection` has `count ≥ 0`;
`TrackingPoint.speed`, when present, is `≥ 0`. -/
theorem C7_accepted_records_in_bounds (j : Json) :
    (∀ p, validateHeatmapPoint j = some p →
      0 ≤ p.x ∧ p.x ≤ 100 ∧ 0 ≤ p.y ∧ p.y ≤ 100 ∧
      0 ≤ p.intensity ∧ p.intensity ≤ 1)
    ∧ (∀ g, validateGoalPrediction j = some g →
      0 ≤ g.shot_x ∧ g.shot_x ≤ 100 ∧ 0 ≤ g.shot_y ∧ g.shot_y ≤ 100 ∧
      0 ≤ g.xG ∧ g.xG ≤ 1)
    ∧ (∀ t, validateTrackingPoint j = some t →
      0 ≤ t.timestamp ∧ 0 ≤ t.x ∧ t.x ≤ 100 ∧ 0 ≤ t.y ∧ t.y ≤ 100 ∧
      ∀ sp, t.speed = some sp → 0 ≤ sp)
    ∧ (∀ o, validateOffsideEvent j = some o →
      0 ≤ o.timestamp ∧ 0 ≤ o.x ∧ o.x ≤ 100 ∧ 0 ≤ o.y ∧ o.y ≤ 100)
    ∧ (∀ f, validateFoulEvent j = some f →
      0 ≤ f.timestamp ∧ 0 ≤ f.x ∧ f.x ≤ 100 ∧ 0 ≤ f.y ∧ f.y ≤ 100)
    ∧ (∀ c, validatePassConnection j = some c → 0 ≤ c.count) := by
  refine ⟨?_, ?_, ?_, ?_, ?_, ?_⟩
  · intro p h
    cases j <;> try exact Option.noConfusion h
    rename_i fields
    simp only [validateHeatmapPoint, Option.bind_eq_some] at h
    obtain ⟨x, hx, y, hy, inten, hin, hp⟩ := h
    obtain ⟨jx, -, hbx⟩ := fieldAs_spec hx
    obtain ⟨jy, -, hby⟩ := fieldAs_spec hy
    obtain ⟨ji, -, hbi⟩ := fieldAs_spec hin
    obtain ⟨h1, h2⟩ := geLeInt_bounds hbx
    obtain ⟨h3, h4⟩ := geLeInt_bounds hby
    obtain ⟨h5, h6⟩ := geLeRat_bounds hbi
    cases hp
    exact ⟨h1, h2, h3, h4, h5, h6⟩
  · intro g h
    cases j <;> try exact Option.noConfusion h
    rename_i fields
    simp only [validateGoalPrediction, Option.bind_eq_some] at h
    obtain ⟨sx, hsx, sy, hsy, xg, hxg, b, -, hp⟩ := h
    obtain ⟨jx, -, hbx⟩ := fieldAs_spec hsx
    obtain ⟨jy, -, hby⟩ := fieldAs_spec hsy
    obtain ⟨jg, -, hbg⟩ := fieldAs_spec hxg
    obtain ⟨h1, h2⟩ := geLeRat_bounds hbx
    obtain ⟨h3, h4⟩ := geLeRat_bounds hby
    obtain ⟨h5, h6⟩ := geLeRat_bounds hbg
    cases hp
    exact ⟨h1, h2, h3, h4, h5, h6⟩
  · intro t h
    cases j <;> try exact Option.noConfusion h
    rename_i fields
    simp only [validateTrackingPoint, Option.bind_eq_some] at h
    obtain ⟨pid, -, ts, hts, x, hx, y, hy, hm⟩ := h
    obtain ⟨jt, -, hbt⟩ := fieldAs_spec hts
    obtain ⟨jx, -, hbx⟩ := fieldAs_spec hx
    obtain ⟨jy, -, hby⟩ := fieldAs_spec hy
    have h1 := geRat_bound hbt
    obtain ⟨h2, h3⟩ := geLeRat_bounds hbx
    obtain ⟨h4, h5⟩ := geLeRat_bounds hby
    split at hm
    · cases hm
      exact ⟨h1, h2, h3, h4, h5, fun sp hsp => Option.noConfusion hsp⟩
    · cases hm
      exact ⟨h1, h2, h3, h4, h5, fun sp hsp => Option.noConfusion hsp⟩
    · simp only [Option.bind_eq_some] at hm
      obtain ⟨sp, hsp, hm⟩ := hm
      have h6 := geRat_bound hsp
      cases hm
      refine ⟨h1, h2, h3, h4, h5, fun sp2 hsp2 => ?_⟩
      cases hsp2
      exact h6
  · intro o h
    cases j <;> try exact Option.noConfusion h
    rename_i fields
    simp only [validateOffsideEvent, Option.bind_eq_some] at h
    obtain ⟨pid, -, ts, hts, x, hx, y, hy, b, -, hp⟩ := h
    obtain ⟨jt, -, hbt⟩ := fieldAs_spec hts
    obtain ⟨jx, -, hbx⟩ := fieldAs_spec hx
    obtain ⟨jy, -, hby⟩ := fieldAs_spec hy
    have h1 := geRat_bound hbt
    obtain ⟨h2, h3⟩ := geLeRat_bounds hbx
    obtain ⟨h4, h5⟩ := geLeRat_bounds hby
    cases hp
    exact ⟨h1, h2, h3, h4, h5⟩
  · intro f h
    cases j <;> try exact Option.noConfusion h
    rename_i fields
    simp only [validateFoulEvent, Option.bind_eq_some] at h
    obtain ⟨fid, -, pc, -, ps, -, ts, hts, x, hx, y, hy, sev, -, b, -, hp⟩ := h
    obtain ⟨jt, -, hbt⟩ := fieldAs_spec hts
    obtain ⟨jx, -, hbx⟩ := fieldAs_spec hx
    obtain ⟨jy, -, hby⟩ := fieldAs_spec hy
    have h1 := geRat_bound hbt
    obtain ⟨h2, h3⟩ := geLeRat_bounds hbx
    obtain ⟨h4, h5⟩ := geLeRat_bounds hby
    cases hp
    exact ⟨h1, h2, h3, h4, h5⟩
  · intro c h
    cases j <;> try exact Option.noConfusion h
    rename_i fields
    simp only [validatePassConnection, Option.bind_eq_some] at h
    obtain ⟨fp, -, tp, -, cnt, hc, hp⟩ := h
    obtain ⟨jc, -, hbc⟩ := fieldAs_spec hc
    have h1 := geInt_bound hbc
    cases hp
    exact h1

/-- Witness for C7: the bounds hold for concrete accepted heatmap-point and
pass-connection records. -/
theorem C7_accepted_records_in_bounds_witness :
    (0 ≤ heatmapPointOk.x ∧ heatmapPointOk.x ≤ 100 ∧
     0 ≤ heatmapPointOk.y ∧ heatmapPointOk.y ≤ 100 ∧
     0 ≤ heatmapPointOk.intensity ∧ heatmapPointOk.intensity ≤ 1)
    ∧ 0 ≤ passConnectionOk.count :=
  ⟨(C7_accepted_records_in_bounds jHeatmapPointOk).1 heatmapPointOk (by decide),
   (C7_accepted_records_in_bounds jPassConnectionOk).2.2.2.2.2 passConnectionOk
     (by decide)⟩

/-- Counterexample to **C1** as stated: `jBadHeatmap` is valid JSON that
violates the `HeatmapPoint` schema (`intensity = 5 ∉ [0,1]`), yet the
heatmap handler returns it unchanged with status 200 — no entity-schema
validation happens. -/
theorem C1_entity_invalid_returned_unchecked :
    heatmapEntityValid jBadHeatmap = false
    ∧ isListDictJson jBadHeatmap = true
    ∧ (Tactical.get_heatmap stBadHeatmap).1 = .ok jBadHeatmap :=
  ⟨by decide, by decide, rfl⟩

/-- **C1 (amended).** The GET route handlers do not validate fixture data
against the entity schemas: the only check applied is the route's generic
declared response model (array of objects, or object), and any fixture of
that generic shape is returned unchanged with status 200 even when it
violates the corresponding entity schema's shape or bounds. -/
theorem C1_no_entity_validation (st : FsState) :
    (∀ j, st (Tactical.DUMMY_DATA_DIR ++ "/" ++ "heatmap.json") =
          some (.valid j) →
        isListDictJson j = true → heatmapEntityValid j = false →
        (Tactical.get_heatmap st).1 = .ok j)
    ∧ (∀ j, st (Tactical.DUMMY_DATA_DIR ++ "/" ++ "pass_network.json") =
          some (.valid j) →
        isDictJson j = true → passNetworkEntityValid j = false →
        (Tactical.get_pass_network st).1 = .ok j)
    ∧ (∀ j, st (Tactical.DUMMY_DATA_DIR ++ "/" ++ "tracking.json") =
          some (.valid j) →
        isListDictJson j = true → trackingEntityValid j = false →
        (Tactical.get_tracking st).1 = .ok j)
    ∧ (∀ j, st (Decisions.DUMMY_DATA_DIR ++ "/" ++ "offside.json") =
          some (.valid j) →
        isListDictJson j = true → offsideEntityValid j = false →
        (Decisions.get_offside st).1 = .ok j)
    ∧ (∀ j, st (Decisions.DUMMY_DATA_DIR ++ "/" ++ "fouls.json") =
          some (.valid j) →
        isListDictJson j = true → foulsEntityValid j = false →
        (Decisions.get_fouls st).1 = .ok j)
    ∧ (∀ j, st (Decisions.DUMMY_DATA_DIR ++ "/" ++ "goal_prediction.json") =
          some (.valid j) →
        isDictJson j = true → goalPredictionEntityValid j = false →
        (Decisions.get_goal_prediction st).1 = .ok j) :=
  ⟨fun j h hc _ =>
      serveFixture_ok _ _ _ _ _ (tactical_loader_ok st _ j h) hc,
   fun j h hc _ =>
      serveFixture_ok _ _ _ _ _ (tactical_loader_ok st _ j h) hc,
   fun j h hc _ =>
      serveFixture_ok _ _ _ _ _ (tactical_loader_ok st _ j h) hc,
   fun j h hc _ =>
      serveFixture_ok _ _ _ _ _ (decisions_loader_ok st _ j h) hc,
   fun j h hc _ =>
      serveFixture_ok _ _ _ _ _ (decisions_loader_ok st _ j h) hc,
   fun j h hc _ =>
      serveFixture_ok _ _ _ _ _ (decisions_loader_ok st _ j h) hc⟩

/-- Witness for the amended C1: with every fixture an entity-invalid value
of the right generic shape, all six handlers return the fixture unchanged. -/
theorem C1_no_entity_validation_witness :
    (Tactical.get_heatmap stGenericOnly).1 = .ok (.arr [.obj []])
    ∧ (Tactical.get_pass_network stGenericOnly).1 = .ok (.obj [])
    ∧ (Tactical.get_tracking stGenericOnly).1 = .ok (.arr [.obj []])
    ∧ (Decisions.get_offside stGenericOnly).1 = .ok (.arr [.obj []])
    ∧ (Decisions.get_fouls stGenericOnly).1 = .ok (.arr [.obj []])
    ∧ (Decisions.get_goal_prediction stGenericOnly).1 = .ok (.obj []) :=
  ⟨(C1_no_entity_validation stGenericOnly).1 _ rfl rfl rfl,
   (C1_no_entity_validation stGenericOnly).2.1 _ rfl rfl rfl,
   (C1_no_entity_validation stGenericOnly).2.2.1 _ rfl rfl rfl,
   (C1_no_entity_validation stGenericOnly).2.2.2.1 _ rfl rfl rfl,
   (C1_no_entity_validation stGenericOnly).2.2.2.2.1 _ rfl rfl rfl,
   (C1_no_entity_validation stGenericOnly).2.2.2.2.2 _ rfl rfl rfl⟩

/-- Counterexample to **C2** as stated: `42` is valid JSON, the fixture file
exists, yet the heatmap endpoint does not answer 200 with the content —
the value does not fit the declared `response_model=List[Dict[str, Any]]`
and the framework raises a response-validation failure (HTTP 500). -/
theorem C2_valid_json_not_always_200 :
    (Tactical.get_heatmap stNum42).1 = HttpResponse.respValidationErr
    ∧ (Tactical.get_heatmap stNum42).1 ≠ HttpResponse.ok (.num 42) :=
  ⟨rfl, fun h =>
    HttpResponse.noConfusion
      ((rfl :
        HttpResponse.respValidationErr = (Tactical.get_heatmap stNum42).1).trans
        h)⟩

/-- **C2 (amended).** For each GET data endpoint, whenever its fixture file
exists, parses as valid JSON, and the parsed value fits the route's declared
generic response model (a JSON array of objects for heatmap, tracking,
offside and fouls; a JSON object for pass-network and goal-prediction), the
handler returns exactly the parsed fixture content with HTTP status 200. -/
theorem C2_fixture_roundtrip (st : FsState) :
    (∀ j, st (Tactical.DUMMY_DATA_DIR ++ "/" ++ "heatmap.json") =
          some (.valid j) →
        isListDictJson j = true → (Tactical.get_heatmap st).1 = .ok j)
    ∧ (∀ j, st (Tactical.DUMMY_DATA_DIR ++ "/" ++ "pass_network.json") =
          some (.valid j) →
        isDictJson j = true → (Tactical.get_pass_network st).1 = .ok j)
    ∧ (∀ j, st (Tactical.DUMMY_DATA_DIR ++ "/" ++ "tracking.json") =
          some (.valid j) →
        isListDictJson j = true → (Tactical.get_tracking st).1 = .ok j)
    ∧ (∀ j, st (Decisions.DUMMY_DATA_DIR ++ "/" ++ "offside.json") =
          some (.valid j) →
        isListDictJson j = true → (Decisions.get_offside st).1 = .ok j)
    ∧ (∀ j, st (Decisions.DUMMY_DATA_DIR ++ "/" ++ "fouls.json") =
          some (.valid j) →
        isListDictJson j = true → (Decisions.get_fouls st).1 = .ok j)
    ∧ (∀ j, st (Decisions.DUMMY_DATA_DIR ++ "/" ++ "goal_prediction.json") =
          some (.valid j) →
        isDictJson j = true → (Decisions.get_goal_prediction st).1 = .ok j) :=
  ⟨fun j h hc =>
      serveFixture_ok _ _ _ _ _ (tactical_loader_ok st _ j h) hc,
   fun j h hc =>
      serveFixture_ok _ _ _ _ _ (tactical_loader_ok st _ j h) hc,
   fun j h hc =>
      serveFixture_ok _ _ _ _ _ (tactical_loader_ok st _ j h) hc,
   fun j h hc =>
      serveFixture_ok _ _ _ _ _ (decisions_loader_ok st _ j h) hc,
   fun j h hc =>
      serveFixture_ok _ _ _ _ _ (decisions_loader_ok st _ j h) hc,
   fun j h hc =>
      serveFixture_ok _ _ _ _ _ (decisions_loader_ok st _ j h) hc⟩

/-- Witness for the amended C2: with one well-formed fixture per endpoint,
all six handlers return the fixture content. -/
theorem C2_fixture_roundtrip_witness :
    (Tactical.get_heatmap stRoundtrip).1 = .ok (.arr [])
    ∧ (Tactical.get_pass_network stRoundtrip).1 =
        .ok (.obj [("passes", .arr [])])
    ∧ (Tactical.get_tracking stRoundtrip).1 = .ok (.arr [])
    ∧ (Decisions.get_offside stRoundtrip).1 = .ok (.arr [])
    ∧ (Decisions.get_fouls stRoundtrip).1 = .ok (.arr [])
    ∧ (Decisions.get_goal_prediction stRoundtrip).1 =
        .ok (.obj [("shot_x", .num 30), ("shot_y", .num 70),
                   ("xG", .num 0), ("is_goal", .bool false)]) :=
  ⟨(C2_fixture_roundtrip stRoundtrip).1 _ rfl rfl,
   (C2_fixture_roundtrip stRoundtrip).2.1 _ rfl rfl,
   (C2_fixture_roundtrip stRoundtrip).2.2.1 _ rfl rfl,
   (C2_fixture_roundtrip stRoundtrip).2.2.2.1 _ rfl rfl,
   (C2_fixture_roundtrip stRoundtrip).2.2.2.2.1 _ rfl rfl,
   (C2_fixture_roundtrip stRoundtrip).2.2.2.2.2 _ rfl rfl⟩

/-- A string starting with `"video/"` is not empty. -/
theorem ne_empty_of_video (s : String) (hv : pyStartsWith s "video/" = true) :
    (s == "") = false := by
  rcases hb : s == "" with _ | _
  · rfl
  · exact absurd (eq_of_beq hb ▸ hv) (by decide)

/-- A string starting with `"video/"` is accepted by the upload handler with
the fixed acknowledgment record. -/
theorem upload_accepts_video (filename : Option String) (s : String)
    (hv : pyStartsWith s "video/" = true) :
    upload_video filename (some s) =
      .ok ⟨"Video uploaded successfully", 1, filename, some s⟩ := by
  have hne := ne_empty_of_video s hv
  unfold upload_video contentTypeTruthy
  simp [hne, hv, Option.getD]

/-- **C4.** POST `/api/upload-video` fails with HTTP 400 if and only if the
uploaded file's declared media type does not begin with `"video/"`; every
upload whose declared media type begins with `"video/"` succeeds. -/
theorem C4_upload_rejects_nonvideo (filename content_type : Option String) :
    (upload_video filename content_type =
        .error ⟨400, "File must be a video"⟩
      ↔ ¬ ∃ s, content_type = some s ∧ pyStartsWith s "video/" = true)
    ∧ (∀ s, content_type = some s → pyStartsWith s "video/" = true →
        ∃ r, upload_video filename content_type = .ok r) := by
  cases content_type with
  | none =>
      refine ⟨⟨fun _ => ?_, fun _ => rfl⟩, fun s hs _ => Option.noConfusion hs⟩
      rintro ⟨s, hs, -⟩
      exact Option.noConfusion hs
  | some s =>
      by_cases hv : pyStartsWith s "video/" = true
      · have hok := upload_accepts_video filename s hv
        refine ⟨⟨fun herr => ?_, fun hns => ?_⟩, fun s2 hs2 hv2 => ?_⟩
        · exact Except.noConfusion (hok.symm.trans herr)
        · exact absurd ⟨s, rfl, hv⟩ hns
        · cases hs2
          exact ⟨_, hok⟩
      · have herr : upload_video filename (some s) =
            .error ⟨400, "File must be a video"⟩ := by
          have hvf : pyStartsWith s "video/" = false :=
            Bool.eq_false_iff.mpr hv
          unfold upload_video contentTypeTruthy
          simp [hvf, Option.getD]
        refine ⟨⟨fun _ => ?_, fun _ => herr⟩, fun s2 hs2 hv2 => ?_⟩
        · rintro ⟨s2, hs2, hv2⟩
          cases hs2
          exact hv hv2
        · cases hs2
          exact absurd hv2 hv

/-- Witness for C4: a `"image/png"` upload is rejected with 400, a
`"video/mp4"` upload succeeds. -/
theorem C4_upload_rejects_nonvideo_witness :
    upload_video (some "match.mp4") (some "image/png") =
      .error ⟨400, "File must be a video"⟩
    ∧ ∃ r, upload_video (some "match.mp4") (some "video/mp4") = .ok r :=
  ⟨(C4_upload_rejects_nonvideo (some "match.mp4") (some "image/png")).1.mpr
      (by rintro ⟨s, hs, hv⟩; cases hs; exact absurd hv (by decide)),
   (C4_upload_rejects_nonvideo (some "match.mp4") (some "video/mp4")).2
      "video/mp4" rfl (by decide)⟩

/-- **C5.** For every accepted upload, the success response is the record
with the fixed success message, the constant `video_id = 1`, and the
filename and content type echoed unchanged from the request. -/
theorem C5_upload_success_record (filename : Option String) (s : String)
    (hv : pyStartsWith s "video/" = true) :
    upload_video filename (some s) =
      .ok ⟨"Video uploaded successfully", 1, filename, some s⟩ :=
  upload_accepts_video filename s hv

/-- Witness for C5: uploading `clip.mp4` as `video/mp4` yields exactly the
fixed acknowledgment record. -/
theorem C5_upload_success_record_witness :
    upload_video (some "clip.mp4") (some "video/mp4") =
      .ok ⟨"Video uploaded successfully", 1, some "clip.mp4",
           some "video/mp4"⟩ :=
  C5_upload_success_record (some "clip.mp4") "video/mp4" (by decide)

/-- **C9.** POST `/api/upload-video` with no declared content type at all
(absent or empty) fails with HTTP 400 exactly like a non-video content
type; it never reaches the success branch. -/
theorem C9_upload_missing_content_type (filename : Option String) :
    upload_video filename none = .error ⟨400, "File must be a video"⟩
    ∧ upload_video filename (some "") =
        .error ⟨400, "File must be a video"⟩ :=
  ⟨rfl, rfl⟩
